import Mathlib

/-!
Verification of `AudioReader` (esphome/components/nabu/audio_reader.cpp).

A shallow embedding of the pull-based audio byte-stream ingester: an
`AudioReader` multiplexes two sources (an in-memory media file, or an HTTP
session) behind one polling `read` step that forwards bytes into a shared
consumer ring buffer.

External collaborators (ESP-IDF HTTP client, the esphome ring buffer, the
media-player descriptor types) are modelled at their interface contracts;
the behaviour of each external call during a step is supplied by an
explicit environment/oracle record, so the embedded functions are pure and
executable.
-/

/-- ESP-IDF error codes are plain integers (`esp_err_t`). -/
abbrev esp_err_t := Int

def ESP_OK : esp_err_t := 0

def ESP_FAIL : esp_err_t := -1

def ESP_ERR_NO_MEM : esp_err_t := 0x101

def ESP_ERR_INVALID_ARG : esp_err_t := 0x102

def ESP_ERR_NOT_SUPPORTED : esp_err_t := 0x106

/-- `media_player::MediaFileType` enumeration. -/
inductive MediaFileType where
  | NONE
  | WAV
  | MP3
  | FLAC
  deriving DecidableEq, Repr

/-- Modelled from the spec: the memory-descriptor contract of
`media_player::MediaFile` (declared outside this component): a caller-owned
byte span together with its declared media type.  The byte pointer and
length are modelled as a list of bytes (its length is the descriptor's
`length` field). -/
structure MediaFile where
  data : List Nat
  file_type : MediaFileType
  deriving DecidableEq, Repr

/-- `AudioReaderState`: the tri-state result of one step. -/
inductive AudioReaderState where
  | READING
  | FINISHED
  | FAILED
  deriving DecidableEq, Repr

/-- Modelled from the spec: the consumer (ring) buffer contract of
`esphome::RingBuffer` (declared outside this component): a fixed-capacity
bounded queue.  `used` is the number of unread bytes currently queued;
`content` is the append-only history of every byte ever written to it (the
byte sequence the consumer receives, in order). -/
structure RingBuffer where
  capacity : Nat
  used : Nat
  content : List Nat
  deriving DecidableEq, Repr

/-- `RingBuffer::free()`: the currently free space. -/
def RingBuffer.free (rb : RingBuffer) : Nat := rb.capacity - rb.used

/-- A fresh, empty ring buffer of the given capacity. -/
def RingBuffer.init (capacity : Nat) : RingBuffer :=
  { capacity := capacity, used := 0, content := [] }

/-- Modelled from the spec: `RingBuffer::write_without_replacement(data, len,
timeout)` — a bounded-wait, no-overwrite write.  It transfers some number
`w` of bytes from the front of `data`: at most the requested `len`, at most
the free space (never overwriting unread data), and possibly fewer because
the bounded wait may time out — the oracle `accept` supplies how many bytes
the concurrent consumer lets through within the timeout.  Returns the
updated buffer and the count actually written. -/
def RingBuffer.write_without_replacement (rb : RingBuffer) (data : List Nat)
    (len : Nat) (accept : Nat) : RingBuffer × Nat :=
  let w := min accept (min len rb.free)
  ({ rb with used := rb.used + w, content := rb.content ++ data.take w }, w)

/-- The consumer task draining `d` bytes from the ring buffer (external
concurrent activity between steps; the received-byte history is kept). -/
def RingBuffer.drain (rb : RingBuffer) (d : Nat) : RingBuffer :=
  { rb with used := rb.used - d }

/-- The mutable fields of `AudioReader`.  The HTTP session handle `client_`
is modelled as `Option Unit` (non-null or null); the staging buffer
`transfer_buffer_` only matters through whether it is allocated.  For the
file path, `transfer_buffer_current_` points into the caller's media-file
data; it is modelled as the byte offset from `current_media_file_->data`.
`transfer_buffer_length_` is the remaining length to forward. -/
structure AudioReader where
  client : Option Unit
  current_media_file : Option MediaFile
  transfer_buffer_size : Nat
  transfer_buffer_alloc : Bool
  transfer_buffer_current : Nat
  transfer_buffer_length : Nat
  deriving DecidableEq, Repr

/-- The constructor `AudioReader(output_ring_buffer, transfer_buffer_size)`:
all pointers start null, the staging buffer is not yet allocated. -/
def AudioReader.init (transfer_buffer_size : Nat) : AudioReader :=
  { client := none
    current_media_file := none
    transfer_buffer_size := transfer_buffer_size
    transfer_buffer_alloc := false
    transfer_buffer_current := 0
    transfer_buffer_length := 0 }

/-- `AudioReader::cleanup_connection_()`: if a session handle is present,
close and release it (exactly once) and null the handle; otherwise do
nothing.  Returns the new state and the number of session releases
performed by this call. -/
def AudioReader.cleanup_connection_ (s : AudioReader) : AudioReader × Nat :=
  match s.client with
  | some _ => ({ s with client := none }, 1)
  | none => (s, 0)

/-- `AudioReader::allocate_buffers_()`: allocate the staging buffer on first
use; `alloc_ok` is the allocator oracle (whether `allocate` returns
non-null).  Returns `ESP_ERR_NO_MEM` when the buffer is still null. -/
def AudioReader.allocate_buffers_ (s : AudioReader) (alloc_ok : Bool) :
    AudioReader × esp_err_t :=
  let s := if s.transfer_buffer_alloc then s
           else if alloc_ok then { s with transfer_buffer_alloc := true } else s
  if s.transfer_buffer_alloc then (s, ESP_OK) else (s, ESP_ERR_NO_MEM)

/-- The outcome of a `start` call: the resulting reader state, the returned
`esp_err_t`, the `file_type` output parameter, whether an
`esp_http_client_open` network call was attempted, and how many session
releases were performed during the call. -/
structure StartResult where
  state : AudioReader
  err : esp_err_t
  file_type : MediaFileType
  opened : Bool
  releases : Nat
  deriving DecidableEq, Repr

/-- `AudioReader::start(media_file, file_type)` — the memory-descriptor
overload.  Sets `file_type` to NONE, allocates the staging buffer, records
the memory view and its length, and reports the declared type.  It performs
no network call and, notably, does not touch `client_`. -/
def AudioReader.startMediaFile (s : AudioReader) (media_file : MediaFile)
    (alloc_ok : Bool) : StartResult :=
  let s1 := (s.allocate_buffers_ alloc_ok).1
  let err := (s.allocate_buffers_ alloc_ok).2
  if err != ESP_OK then
    { state := s1, err := err, file_type := .NONE, opened := false, releases := 0 }
  else
    { state := { s1 with
        current_media_file := some media_file
        transfer_buffer_current := 0
        transfer_buffer_length := media_file.data.length }
      err := ESP_OK
      file_type := media_file.file_type
      opened := false
      releases := 0 }

/-- The environment/oracle for one `start(uri)` call: the results of each
ESP-IDF HTTP client call it makes.  `fetch_headers_result` is the value
returned by `esp_http_client_fetch_headers` (the content length, or a
negative value on failure); `resolved_url` is what
`esp_http_client_get_url` writes when it succeeds. -/
structure HttpStartEnv where
  init_ok : Bool
  open_err : esp_err_t
  fetch_headers_result : Int
  get_url_err : esp_err_t
  resolved_url : String
  set_timeout_err : esp_err_t
  deriving DecidableEq, Repr

/-- `str_endswith` from the esphome helpers: whether `str` ends with
`ending`. -/
def str_endswith (str ending : String) : Bool :=
  ending.data.isSuffixOf str.data

/-- `start(uri)`, final stage (source lines 127–136): lower the per-read
timeout via `esp_http_client_set_timeout_ms` (cleanup and failure return on
error — note `file_type` keeps the suffix-derived value there), then reset
the transfer cursor to the staging buffer with zero pending length. -/
def AudioReader.startUriFinish (s3 : AudioReader) (env : HttpStartEnv)
    (rel0 : Nat) (ft : MediaFileType) : StartResult :=
  if env.set_timeout_err != ESP_OK then
    { state := s3.cleanup_connection_.1, err := env.set_timeout_err,
      file_type := ft, opened := true,
      releases := rel0 + s3.cleanup_connection_.2 }
  else
    { state := { s3 with
        transfer_buffer_current := 0
        transfer_buffer_length := 0 }
      err := ESP_OK, file_type := ft, opened := true, releases := rel0 }

/-- `start(uri)`, suffix stage (source lines 113–125): determine the
MediaFileType from the resolved URL string's suffix; an unrecognised suffix
sets `file_type` to NONE, cleans up and returns `ESP_ERR_NOT_SUPPORTED`. -/
def AudioReader.startUriType (s3 : AudioReader) (env : HttpStartEnv)
    (rel0 : Nat) : StartResult :=
  let url_string := env.resolved_url
  if str_endswith url_string ".wav" then s3.startUriFinish env rel0 .WAV
  else if str_endswith url_string ".mp3" then s3.startUriFinish env rel0 .MP3
  else if str_endswith url_string ".flac" then s3.startUriFinish env rel0 .FLAC
  else
    { state := s3.cleanup_connection_.1, err := ESP_ERR_NOT_SUPPORTED,
      file_type := .NONE, opened := true,
      releases := rel0 + s3.cleanup_connection_.2 }

/-- `start(uri)`, header stage (source lines 104–111): call
`esp_http_client_fetch_headers` — its result is stored in `content_length`,
which the source never consults — then `esp_http_client_get_url`, whose
failure triggers cleanup and a failure return. -/
def AudioReader.startUriHeaders (s3 : AudioReader) (env : HttpStartEnv)
    (rel0 : Nat) : StartResult :=
  let _content_length := env.fetch_headers_result
  if env.get_url_err != ESP_OK then
    { state := s3.cleanup_connection_.1, err := env.get_url_err,
      file_type := .NONE, opened := true,
      releases := rel0 + s3.cleanup_connection_.2 }
  else
    s3.startUriType env rel0

/-- `start(uri)`, connect stage (source lines 72–102): reject an empty URI;
build the client config and `esp_http_client_init` (null handle is
`ESP_FAIL`); `esp_http_client_open`, whose failure triggers cleanup and a
failure return. -/
def AudioReader.startUriConnect (s2 : AudioReader) (uri : String)
    (env : HttpStartEnv) (rel0 : Nat) : StartResult :=
  if uri.isEmpty then
    { state := s2, err := ESP_ERR_INVALID_ARG, file_type := .NONE,
      opened := false, releases := rel0 }
  else if !env.init_ok then
    { state := s2, err := ESP_FAIL, file_type := .NONE,
      opened := false, releases := rel0 }
  else
    let s3 := { s2 with client := some () }
    if env.open_err != ESP_OK then
      { state := s3.cleanup_connection_.1, err := env.open_err,
        file_type := .NONE, opened := true,
        releases := rel0 + s3.cleanup_connection_.2 }
    else
      s3.startUriHeaders env rel0

/-- `AudioReader::start(uri, file_type)` — the URI overload (source lines
62–137): set `file_type` to NONE, allocate the staging buffer, tear down
any existing session, then proceed through the connect, header, suffix and
finish stages above. -/
def AudioReader.startUri (s : AudioReader) (uri : String) (alloc_ok : Bool)
    (env : HttpStartEnv) : StartResult :=
  let s1 := (s.allocate_buffers_ alloc_ok).1
  let aerr := (s.allocate_buffers_ alloc_ok).2
  if aerr != ESP_OK then
    { state := s1, err := aerr, file_type := .NONE, opened := false, releases := 0 }
  else
    s1.cleanup_connection_.1.startUriConnect uri env s1.cleanup_connection_.2

/-- The environment/oracle for one step: the results of the external calls
an `http_read_` step may make (`esp_http_client_is_complete_data_received`,
`esp_http_client_read` with the bytes it delivers into the staging buffer),
plus `write_accept` for the bounded-wait ring-buffer write on either path,
and `drain` bytes removed by the concurrent consumer just before the step. -/
structure StepEnv where
  is_complete_data : Bool
  read_result : Int
  read_data : List Nat
  write_accept : Nat
  drain : Nat
  deriving DecidableEq, Repr

/-- The outcome of one step: the resulting reader and ring-buffer states,
the returned `AudioReaderState`, the `max_len` argument of the
`esp_http_client_read` call if one was issued (`none` if not), the bytes
actually written to the consumer buffer, whether a pacing `vTaskDelay`
occurred before returning, and the number of session releases performed. -/
structure StepResult where
  state : AudioReader
  rb : RingBuffer
  result : AudioReaderState
  read_request : Option Nat
  bytes_written : Nat
  delayed : Bool
  releases : Nat
  deriving DecidableEq, Repr

/-- `AudioReader::file_read_()`: if bytes remain, forward up to the
remaining length from the cursor into the consumer buffer with a
bounded-wait write, advance the cursor, and return READING; otherwise
return FINISHED. -/
def AudioReader.file_read_ (s : AudioReader) (rb : RingBuffer) (env : StepEnv) :
    StepResult :=
  if s.transfer_buffer_length > 0 then
    let data := (match s.current_media_file with
      | some mf => mf.data
      | none => []).drop s.transfer_buffer_current
    let (rb2, bytes_written) :=
      rb.write_without_replacement data s.transfer_buffer_length env.write_accept
    { state := { s with
        transfer_buffer_length := s.transfer_buffer_length - bytes_written
        transfer_buffer_current := s.transfer_buffer_current + bytes_written }
      rb := rb2, result := .READING, read_request := none,
      bytes_written := bytes_written, delayed := false, releases := 0 }
  else
    { state := s, rb := rb, result := .FINISHED, read_request := none,
      bytes_written := 0, delayed := false, releases := 0 }

/-- `AudioReader::http_read_()`: FINISHED (after cleanup) when the session
reports all data received; otherwise request
`bytes_to_read = min(transfer_buffer_size_, ring free space)` bytes from the
session.  A negative result cleans up and returns FAILED; a positive result
is forwarded by a bounded-wait write; a read of fewer than 3/4 of the
staging capacity is followed by a pacing delay; the step returns READING. -/
def AudioReader.http_read_ (s : AudioReader) (rb : RingBuffer) (env : StepEnv) :
    StepResult :=
  if env.is_complete_data then
    let (s2, rel) := s.cleanup_connection_
    { state := s2, rb := rb, result := .FINISHED, read_request := none,
      bytes_written := 0, delayed := false, releases := rel }
  else
    let space_available := rb.free
    let bytes_to_read :=
      if space_available < s.transfer_buffer_size then space_available
      else s.transfer_buffer_size
    let received_len := env.read_result
    if received_len < 0 then
      let (s2, rel) := s.cleanup_connection_
      { state := s2, rb := rb, result := .FAILED,
        read_request := some bytes_to_read,
        bytes_written := 0, delayed := false, releases := rel }
    else
      let (rb2, bytes_written) :=
        if received_len > 0 then
          rb.write_without_replacement env.read_data received_len.toNat
            env.write_accept
        else (rb, 0)
      let delayed := received_len * 4 < (s.transfer_buffer_size : Int) * 3
      { state := s, rb := rb2, result := .READING,
        read_request := some bytes_to_read,
        bytes_written := bytes_written, delayed := delayed, releases := 0 }

/-- `AudioReader::read()`: dispatch to the HTTP path when a session handle
is present, else to the file path when a media file is set, else FAILED. -/
def AudioReader.read (s : AudioReader) (rb : RingBuffer) (env : StepEnv) :
    StepResult :=
  if s.client.isSome then
    s.http_read_ rb env
  else if s.current_media_file.isSome then
    s.file_read_ rb env
  else
    { state := s, rb := rb, result := .FAILED, read_request := none,
      bytes_written := 0, delayed := false, releases := 0 }

/-- One polling iteration as the caller's task sees it: the concurrent
consumer drains some bytes, then the caller invokes `read`. -/
def AudioReader.step (s : AudioReader) (rb : RingBuffer) (env : StepEnv) :
    StepResult :=
  s.read (rb.drain env.drain) env

/-- Repeatedly invoke the step operation, one environment per step.
Returns the final reader and ring-buffer states together with the status
returned by the last step (`none` when no step was taken). -/
def AudioReader.runSteps (s : AudioReader) (rb : RingBuffer) :
    List StepEnv → AudioReader × RingBuffer × Option AudioReaderState
  | [] => (s, rb, none)
  | env :: envs =>
    let r := s.step rb env
    match envs with
    | [] => (r.state, r.rb, some r.result)
    | _ => r.state.runSteps r.rb envs

/-- The file-path streaming invariant relating a reader in memory-source
mode to the consumer buffer: no session handle, the memory view is set, the
cursor and the remaining length partition the media file's data, and the
bytes forwarded so far are exactly the first `transfer_buffer_current`
bytes of the media file, in order. -/
def FileInv (mf : MediaFile) (s : AudioReader) (rb : RingBuffer) : Prop :=
  s.client = none ∧ s.current_media_file = some mf ∧
  s.transfer_buffer_current + s.transfer_buffer_length = mf.data.length ∧
  rb.content = mf.data.take s.transfer_buffer_current

/-! ## Claim theorems -/

/-- C10: invoking the step operation when no source has ever been started
(no network session and no memory source set) returns FAILED, issues no
session read request, writes nothing to the consumer buffer, and leaves
both the reader and the ring buffer unchanged. -/
theorem C10_no_source_failed (s : AudioReader) (rb : RingBuffer) (env : StepEnv)
    (hc : s.client = none) (hm : s.current_media_file = none) :
    (s.read rb env).result = .FAILED ∧
    (s.read rb env).read_request = none ∧
    (s.read rb env).bytes_written = 0 ∧
    (s.read rb env).rb = rb ∧
    (s.read rb env).state = s := by
  simp [AudioReader.read, hc, hm]

theorem C10_no_source_failed_witness :
    ((AudioReader.init 64).read (RingBuffer.init 256)
        { is_complete_data := false, read_result := 0, read_data := [],
          write_accept := 0, drain := 0 }).result = .FAILED :=
  (C10_no_source_failed (AudioReader.init 64) (RingBuffer.init 256)
    { is_complete_data := false, read_result := 0, read_data := [],
      write_accept := 0, drain := 0 } rfl rfl).1

/-- C6: on a network-path step where the session read returns a negative
value, the step returns FAILED and the session is released exactly once
(the handle is nulled), and a subsequent cleanup invocation is a safe no-op
(zero releases, state unchanged). -/
theorem C6_negative_read_failed (s : AudioReader) (rb : RingBuffer)
    (env : StepEnv) (hc : s.client = some ())
    (hdone : env.is_complete_data = false) (hneg : env.read_result < 0) :
    (s.read rb env).result = .FAILED ∧
    (s.read rb env).releases = 1 ∧
    (s.read rb env).state.client = none ∧
    (s.read rb env).state.cleanup_connection_ = ((s.read rb env).state, 0) := by
  simp only [AudioReader.read, hc, Option.isSome_some, if_true]
  simp [AudioReader.http_read_, AudioReader.cleanup_connection_, hc, hdone, hneg,
    not_lt.mpr (le_of_lt hneg)]

theorem C6_negative_read_failed_witness :
    (({ (AudioReader.init 64) with
          client := some ()
          transfer_buffer_alloc := true } : AudioReader).read
        (RingBuffer.init 256)
        { is_complete_data := false, read_result := -1, read_data := [],
          write_accept := 0, drain := 0 }).result = .FAILED :=
  (C6_negative_read_failed _ _ _ rfl rfl (by decide)).1

/-- C7: on a non-terminal network-path step (session not complete, read not
negative) the step returns READING and a pacing delay occurs before it
returns if and only if the bytes received are strictly fewer than 3/4 of
the staging-buffer capacity. -/
theorem C7_pacing (s : AudioReader) (rb : RingBuffer) (env : StepEnv)
    (hc : s.client = some ()) (hdone : env.is_complete_data = false)
    (hnn : 0 ≤ env.read_result) :
    (s.read rb env).result = .READING ∧
    ((s.read rb env).delayed = true ↔
      (env.read_result : ℚ) < 3 / 4 * (s.transfer_buffer_size : ℚ)) := by
  have key : (env.read_result * 4 < (s.transfer_buffer_size : Int) * 3) ↔
      (env.read_result : ℚ) < 3 / 4 * (s.transfer_buffer_size : ℚ) := by
    constructor
    · intro h
      have h4 : ((env.read_result * 4 : Int) : ℚ) <
          (((s.transfer_buffer_size : Int) * 3 : Int) : ℚ) := by exact_mod_cast h
      push_cast at h4
      linarith
    · intro h
      have h4 : (env.read_result : ℚ) * 4 < ((s.transfer_buffer_size : ℚ)) * 3 := by
        linarith
      exact_mod_cast h4
  simp only [AudioReader.read, hc, Option.isSome_some, if_true]
  simp only [AudioReader.http_read_, hdone, Bool.false_eq_true, if_false,
    not_lt.mpr hnn, decide_eq_true_eq]
  exact ⟨trivial, key⟩

theorem C7_pacing_witness :
    ((({ (AudioReader.init 64) with
          client := some ()
          transfer_buffer_alloc := true } : AudioReader).read
        (RingBuffer.init 256)
        { is_complete_data := false, read_result := 47
          read_data := List.replicate 47 7, write_accept := 47,
          drain := 0 }).delayed = true) ∧
    ¬ ((({ (AudioReader.init 64) with
          client := some ()
          transfer_buffer_alloc := true } : AudioReader).read
        (RingBuffer.init 256)
        { is_complete_data := false, read_result := 48
          read_data := List.replicate 48 7, write_accept := 48,
          drain := 0 }).delayed = true) := by
  constructor
  · exact (C7_pacing _ _ _ rfl rfl (by decide)).2.mpr
      (by norm_num [AudioReader.init])
  · intro hd
    have h := (C7_pacing ({ (AudioReader.init 64) with
          client := some ()
          transfer_buffer_alloc := true } : AudioReader) (RingBuffer.init 256)
        { is_complete_data := false, read_result := 48
          read_data := List.replicate 48 7, write_accept := 48,
          drain := 0 } rfl rfl (by decide)).2.mp hd
    norm_num [AudioReader.init] at h

/-- C4 (amended): on every network-path step that passes the
completeness check, the `max_len` passed to the session read equals
`min(staging-buffer capacity, consumer free space)`; when the consumer
buffer is full that quota is 0, and the session read call is still issued —
it requests 0 bytes rather than being skipped. -/
theorem C4_read_quota (s : AudioReader) (rb : RingBuffer) (env : StepEnv)
    (hc : s.client = some ()) (hdone : env.is_complete_data = false) :
    (s.read rb env).read_request =
      some (min s.transfer_buffer_size rb.free) ∧
    (rb.used = rb.capacity →
      (s.read rb env).read_request = some 0 ∧
      (s.read rb env).read_request ≠ none) := by
  have hmin : (if rb.free < s.transfer_buffer_size then rb.free
      else s.transfer_buffer_size) = min s.transfer_buffer_size rb.free := by
    rcases lt_or_ge rb.free s.transfer_buffer_size with h | h
    · simp [h, min_eq_right (le_of_lt h)]
    · simp [not_lt.mpr h, min_eq_left h]
  have hreq : (s.read rb env).read_request =
      some (min s.transfer_buffer_size rb.free) := by
    simp only [AudioReader.read, hc, Option.isSome_some, if_true]
    simp only [AudioReader.http_read_, hdone, Bool.false_eq_true, if_false]
    rcases lt_or_ge env.read_result 0 with h | h
    · simp [h, hmin]
    · simp [not_lt.mpr h, hmin]
  refine ⟨hreq, fun hfull => ⟨?_, ?_⟩⟩
  · rw [hreq]
    simp [RingBuffer.free, hfull]
  · rw [hreq]
    simp

/-- C4, the claim as stated is false: with a full consumer buffer the code
still issues a session read request (with `max_len` 0) instead of issuing
none, as witnessed on a concrete full buffer. -/
theorem C4_counterexample :
    ((({ (AudioReader.init 64) with
          client := some ()
          transfer_buffer_alloc := true } : AudioReader).read
        { capacity := 256, used := 256, content := [] }
        { is_complete_data := false, read_result := 0, read_data := [],
          write_accept := 0, drain := 0 }).read_request = some 0) ∧
    ¬ ((({ (AudioReader.init 64) with
          client := some ()
          transfer_buffer_alloc := true } : AudioReader).read
        { capacity := 256, used := 256, content := [] }
        { is_complete_data := false, read_result := 0, read_data := [],
          write_accept := 0, drain := 0 }).read_request = none) := by
  refine ⟨by decide, by decide⟩

/-- C9: `start(uri)` with an empty URI string (given the staging buffer can
be allocated) returns an invalid-argument failure, never attempts to open a
session, and leaves no session handle set. -/
theorem C9_empty_uri (s : AudioReader) (alloc_ok : Bool) (env : HttpStartEnv)
    (halloc : s.transfer_buffer_alloc = true ∨ alloc_ok = true) :
    (s.startUri "" alloc_ok env).err = ESP_ERR_INVALID_ARG ∧
    (s.startUri "" alloc_ok env).opened = false ∧
    (s.startUri "" alloc_ok env).state.client = none := by
  simp only [AudioReader.startUri, AudioReader.startUriConnect,
    AudioReader.allocate_buffers_, AudioReader.cleanup_connection_]
  rcases halloc with h | h
  · cases hc : s.client <;>
      simp [h, hc, ESP_OK, String.isEmpty]
  · cases ha : s.transfer_buffer_alloc <;> cases hc : s.client <;>
      simp [h, ha, hc, ESP_OK, String.isEmpty]

theorem C9_empty_uri_witness :
    ((AudioReader.init 64).startUri "" true
      { init_ok := true, open_err := ESP_OK, fetch_headers_result := 0,
        get_url_err := ESP_OK, resolved_url := "", set_timeout_err := ESP_OK
        }).err = ESP_ERR_INVALID_ARG :=
  (C9_empty_uri (AudioReader.init 64) true
    { init_ok := true, open_err := ESP_OK, fetch_headers_result := 0,
      get_url_err := ESP_OK, resolved_url := "", set_timeout_err := ESP_OK }
    (Or.inr rfl)).1

/-- C8: when the resolved URL's suffix is none of .wav/.mp3/.flac (and the
call reaches the suffix check: allocation succeeds, the URI is non-empty,
init, open and get-url succeed), `start(uri)` returns the
unsupported-format failure with the output MediaFileType set to NONE and
leaves no open session — a subsequent cleanup is a no-op. -/
theorem C8_unsupported_suffix (s : AudioReader) (uri : String)
    (alloc_ok : Bool) (env : HttpStartEnv)
    (halloc : s.transfer_buffer_alloc = true ∨ alloc_ok = true)
    (huri : uri.isEmpty = false) (hinit : env.init_ok = true)
    (hopen : env.open_err = ESP_OK) (hurl : env.get_url_err = ESP_OK)
    (hwav : str_endswith env.resolved_url ".wav" = false)
    (hmp3 : str_endswith env.resolved_url ".mp3" = false)
    (hflac : str_endswith env.resolved_url ".flac" = false) :
    (s.startUri uri alloc_ok env).err = ESP_ERR_NOT_SUPPORTED ∧
    (s.startUri uri alloc_ok env).file_type = .NONE ∧
    (s.startUri uri alloc_ok env).state.client = none ∧
    (s.startUri uri alloc_ok env).state.cleanup_connection_ =
      ((s.startUri uri alloc_ok env).state, 0) := by
  simp only [AudioReader.startUri, AudioReader.startUriConnect,
    AudioReader.startUriHeaders, AudioReader.startUriType,
    AudioReader.allocate_buffers_]
  rcases halloc with h | h
  · cases hc : s.client <;>
      simp [h, hc, huri, hinit, hopen, hurl, hwav, hmp3, hflac, ESP_OK,
        AudioReader.cleanup_connection_]
  · cases ha : s.transfer_buffer_alloc <;> cases hc : s.client <;>
      simp [h, ha, hc, huri, hinit, hopen, hurl, hwav, hmp3, hflac, ESP_OK,
        AudioReader.cleanup_connection_]

theorem C8_unsupported_suffix_witness :
    ((AudioReader.init 64).startUri "http://a/b.ogg" true
      { init_ok := true, open_err := ESP_OK, fetch_headers_result := 10,
        get_url_err := ESP_OK, resolved_url := "http://a/b.ogg",
        set_timeout_err := ESP_OK }).err = ESP_ERR_NOT_SUPPORTED :=
  (C8_unsupported_suffix (AudioReader.init 64) "http://a/b.ogg" true
    { init_ok := true, open_err := ESP_OK, fetch_headers_result := 10,
      get_url_err := ESP_OK, resolved_url := "http://a/b.ogg",
      set_timeout_err := ESP_OK }
    (Or.inr rfl) (by decide) rfl rfl rfl (by decide) (by decide)
    (by decide)).1


/-- `allocate_buffers_` never touches the session handle. -/
theorem allocate_buffers_client (s : AudioReader) (b : Bool) :
    (s.allocate_buffers_ b).1.client = s.client := by
  cases ha : s.transfer_buffer_alloc <;> cases b <;>
    simp [AudioReader.allocate_buffers_, ha]

/-- `cleanup_connection_` nulls the handle and counts one release exactly
when a handle was present. -/
theorem cleanup_connection_spec (s : AudioReader) :
    s.cleanup_connection_ =
      ({ s with client := none }, if s.client.isSome then 1 else 0) := by
  cases s with
  | mk c m sz a cur len => cases c <;> simp [AudioReader.cleanup_connection_]

/-- If the finish stage returns `ESP_OK`, it kept the session handle and
performed no further release. -/
theorem startUriFinish_ok (s3 : AudioReader) (env : HttpStartEnv)
    (rel0 : Nat) (ft : MediaFileType)
    (h : (s3.startUriFinish env rel0 ft).err = ESP_OK) :
    (s3.startUriFinish env rel0 ft).state.client = s3.client ∧
    (s3.startUriFinish env rel0 ft).releases = rel0 := by
  by_cases hst : (env.set_timeout_err != ESP_OK) = true
  · rw [AudioReader.startUriFinish, if_pos hst] at h
    exact absurd h (by simpa [bne_iff_ne] using hst)
  · rw [AudioReader.startUriFinish, if_neg hst]
    exact ⟨rfl, rfl⟩

/-- If the suffix stage returns `ESP_OK`, it kept the session handle and
performed no further release. -/
theorem startUriType_ok (s3 : AudioReader) (env : HttpStartEnv) (rel0 : Nat)
    (h : (s3.startUriType env rel0).err = ESP_OK) :
    (s3.startUriType env rel0).state.client = s3.client ∧
    (s3.startUriType env rel0).releases = rel0 := by
  by_cases h1 : str_endswith env.resolved_url ".wav" = true
  · rw [AudioReader.startUriType, if_pos h1] at h ⊢
    exact startUriFinish_ok s3 env rel0 .WAV h
  · by_cases h2 : str_endswith env.resolved_url ".mp3" = true
    · rw [AudioReader.startUriType, if_neg h1, if_pos h2] at h ⊢
      exact startUriFinish_ok s3 env rel0 .MP3 h
    · by_cases h3 : str_endswith env.resolved_url ".flac" = true
      · rw [AudioReader.startUriType, if_neg h1, if_neg h2, if_pos h3] at h ⊢
        exact startUriFinish_ok s3 env rel0 .FLAC h
      · rw [AudioReader.startUriType, if_neg h1, if_neg h2, if_neg h3] at h
        exact absurd h (by simp [ESP_ERR_NOT_SUPPORTED, ESP_OK])

/-- If the header stage returns `ESP_OK`, it kept the session handle and
performed no further release. -/
theorem startUriHeaders_ok (s3 : AudioReader) (env : HttpStartEnv) (rel0 : Nat)
    (h : (s3.startUriHeaders env rel0).err = ESP_OK) :
    (s3.startUriHeaders env rel0).state.client = s3.client ∧
    (s3.startUriHeaders env rel0).releases = rel0 := by
  by_cases hu : (env.get_url_err != ESP_OK) = true
  · rw [AudioReader.startUriHeaders, if_pos hu] at h
    exact absurd h (by simpa [bne_iff_ne] using hu)
  · rw [AudioReader.startUriHeaders, if_neg hu] at h ⊢
    exact startUriType_ok s3 env rel0 h

/-- If the connect stage returns `ESP_OK`, the resulting reader holds the
freshly opened session and no release happened after the stage began. -/
theorem startUriConnect_ok (s2 : AudioReader) (uri : String)
    (env : HttpStartEnv) (rel0 : Nat)
    (h : (s2.startUriConnect uri env rel0).err = ESP_OK) :
    (s2.startUriConnect uri env rel0).state.client = some () ∧
    (s2.startUriConnect uri env rel0).releases = rel0 := by
  by_cases h1 : uri.isEmpty = true
  · rw [AudioReader.startUriConnect, if_pos h1] at h
    exact absurd h (by simp [ESP_ERR_INVALID_ARG, ESP_OK])
  · by_cases h2 : (!env.init_ok) = true
    · rw [AudioReader.startUriConnect, if_neg h1, if_pos h2] at h
      exact absurd h (by simp [ESP_FAIL, ESP_OK])
    · by_cases h3 : (env.open_err != ESP_OK) = true
      · rw [AudioReader.startUriConnect, if_neg h1, if_neg h2, if_pos h3] at h
        exact absurd h (by simpa [bne_iff_ne] using h3)
      · rw [AudioReader.startUriConnect, if_neg h1, if_neg h2, if_neg h3] at h ⊢
        exact startUriHeaders_ok _ env rel0 h

/-- C1 (amended): a successful `start(uri)` first discards any existing
network session (exactly one release when one existed, none otherwise) and
leaves the new session as the active handle; a successful `start` with a
memory descriptor records the memory view but performs no session teardown
and leaves the session handle exactly as it was — so a stale network
session survives a memory `start`, and `read` keeps dispatching to it in
preference to the new memory source. -/
theorem C1_start_session_handling :
    (∀ (s : AudioReader) (uri : String) (alloc_ok : Bool) (env : HttpStartEnv),
      (s.startUri uri alloc_ok env).err = ESP_OK →
        (s.startUri uri alloc_ok env).state.client = some () ∧
        (s.startUri uri alloc_ok env).releases =
          (if s.client.isSome then 1 else 0)) ∧
    (∀ (s : AudioReader) (media_file : MediaFile) (alloc_ok : Bool),
      (s.startMediaFile media_file alloc_ok).err = ESP_OK →
        (s.startMediaFile media_file alloc_ok).state.client = s.client ∧
        (s.startMediaFile media_file alloc_ok).state.current_media_file =
          some media_file ∧
        (s.startMediaFile media_file alloc_ok).releases = 0) := by
  constructor
  · intro s uri alloc_ok env h
    by_cases hae : ((s.allocate_buffers_ alloc_ok).2 != ESP_OK) = true
    · rw [AudioReader.startUri, if_pos hae] at h
      exact absurd h (by simpa [bne_iff_ne] using hae)
    · rw [AudioReader.startUri, if_neg hae] at h ⊢
      have hc := startUriConnect_ok _ uri env _ h
      refine ⟨hc.1, ?_⟩
      rw [hc.2, cleanup_connection_spec, allocate_buffers_client]
  · intro s media_file alloc_ok h
    cases ha : s.transfer_buffer_alloc <;> cases hb : alloc_ok <;>
      simp_all [AudioReader.startMediaFile, AudioReader.allocate_buffers_,
        ESP_OK, ESP_ERR_NO_MEM]

/-- C1, the claim as stated is false: on a reader holding an open network
session, `start` with a memory descriptor succeeds without discarding the
session (zero releases, handle still set), leaving both the network session
and the memory source active at once. -/
theorem C1_counterexample :
    (((({ (AudioReader.init 64) with
          client := some ()
          transfer_buffer_alloc := true } : AudioReader).startMediaFile
        { data := [1, 2, 3], file_type := .WAV } true).err = ESP_OK) ∧
     ((({ (AudioReader.init 64) with
          client := some ()
          transfer_buffer_alloc := true } : AudioReader).startMediaFile
        { data := [1, 2, 3], file_type := .WAV } true).releases = 0) ∧
     ((({ (AudioReader.init 64) with
          client := some ()
          transfer_buffer_alloc := true } : AudioReader).startMediaFile
        { data := [1, 2, 3], file_type := .WAV } true).state.client = some ()) ∧
     ((({ (AudioReader.init 64) with
          client := some ()
          transfer_buffer_alloc := true } : AudioReader).startMediaFile
        { data := [1, 2, 3], file_type := .WAV } true).state.current_media_file
        = some { data := [1, 2, 3], file_type := .WAV })) := by
  refine ⟨by decide, by decide, by decide, by decide⟩

theorem C1_start_session_handling_witness :
    ((AudioReader.init 64).startUri "http://a/b.mp3" true
      { init_ok := true, open_err := ESP_OK, fetch_headers_result := 10,
        get_url_err := ESP_OK, resolved_url := "http://a/b.mp3",
        set_timeout_err := ESP_OK }).state.client = some () :=
  (C1_start_session_handling.1 (AudioReader.init 64) "http://a/b.mp3" true
    { init_ok := true, open_err := ESP_OK, fetch_headers_result := 10,
      get_url_err := ESP_OK, resolved_url := "http://a/b.mp3",
      set_timeout_err := ESP_OK } (by decide)).1

/-- When the staging buffer is already allocated or allocation succeeds,
`allocate_buffers_` reports `ESP_OK`. -/
theorem allocate_buffers_ok (s : AudioReader) (b : Bool)
    (h : s.transfer_buffer_alloc = true ∨ b = true) :
    (s.allocate_buffers_ b).2 = ESP_OK := by
  rcases h with h | h
  · simp [AudioReader.allocate_buffers_, h]
  · cases ha : s.transfer_buffer_alloc <;>
      simp [AudioReader.allocate_buffers_, h, ha]

/-- From a reader whose session handle is already null, any failure of the
resolved-URL fetch makes the connect stage fail with no session left. -/
theorem startUriConnect_geturl_fail (s2 : AudioReader) (uri : String)
    (env : HttpStartEnv) (rel0 : Nat) (hurl : env.get_url_err ≠ ESP_OK)
    (hs2 : s2.client = none) :
    (s2.startUriConnect uri env rel0).err ≠ ESP_OK ∧
    (s2.startUriConnect uri env rel0).state.client = none := by
  by_cases h1 : uri.isEmpty = true
  · rw [AudioReader.startUriConnect, if_pos h1]
    exact ⟨by simp [ESP_ERR_INVALID_ARG, ESP_OK], hs2⟩
  · by_cases h2 : (!env.init_ok) = true
    · rw [AudioReader.startUriConnect, if_neg h1, if_pos h2]
      exact ⟨by simp [ESP_FAIL, ESP_OK], hs2⟩
    · by_cases h3 : (env.open_err != ESP_OK) = true
      · rw [AudioReader.startUriConnect, if_neg h1, if_neg h2, if_pos h3]
        refine ⟨by simpa [bne_iff_ne] using h3, ?_⟩
        rw [cleanup_connection_spec]
      · rw [AudioReader.startUriConnect, if_neg h1, if_neg h2, if_neg h3]
        have hu : (env.get_url_err != ESP_OK) = true := by
          simpa [bne_iff_ne] using hurl
        rw [AudioReader.startUriHeaders, if_pos hu]
        refine ⟨hurl, ?_⟩
        rw [cleanup_connection_spec]

/-- C2 (amended): `start(uri)` calls the header fetch but never consults
its result — the outcome of `start` is identical for every header-fetch
return value, so a failed header fetch alone neither forces cleanup nor a
failure return.  The checked step right after is the resolved-URL fetch:
whenever it fails (and the staging buffer is available), `start` returns a
failure and leaves no open session. -/
theorem C2_header_fetch_unchecked :
    (∀ (s : AudioReader) (uri : String) (alloc_ok : Bool)
        (env : HttpStartEnv) (x : Int),
      s.startUri uri alloc_ok env =
        s.startUri uri alloc_ok { env with fetch_headers_result := x }) ∧
    (∀ (s : AudioReader) (uri : String) (alloc_ok : Bool) (env : HttpStartEnv),
      (s.transfer_buffer_alloc = true ∨ alloc_ok = true) →
      env.get_url_err ≠ ESP_OK →
      (s.startUri uri alloc_ok env).err ≠ ESP_OK ∧
      (s.startUri uri alloc_ok env).state.client = none) := by
  constructor
  · intro s uri alloc_ok env x
    cases env
    rfl
  · intro s uri alloc_ok env halloc hurl
    have hok := allocate_buffers_ok s alloc_ok halloc
    have hae : ((s.allocate_buffers_ alloc_ok).2 != ESP_OK) = false := by
      simp [hok]
    rw [AudioReader.startUri, if_neg (by simp [hae])]
    refine startUriConnect_geturl_fail _ uri env _ hurl ?_
    rw [cleanup_connection_spec]

/-- C2, the claim as stated is false: a header fetch that fails (returns
-1) while every other call succeeds still lets `start(uri)` return `ESP_OK`
with an open session, at a concrete URI. -/
theorem C2_counterexample :
    (((AudioReader.init 64).startUri "http://a/b.mp3" true
      { init_ok := true, open_err := ESP_OK, fetch_headers_result := -1,
        get_url_err := ESP_OK, resolved_url := "http://a/b.mp3",
        set_timeout_err := ESP_OK }).err = ESP_OK) ∧
    (((AudioReader.init 64).startUri "http://a/b.mp3" true
      { init_ok := true, open_err := ESP_OK, fetch_headers_result := -1,
        get_url_err := ESP_OK, resolved_url := "http://a/b.mp3",
        set_timeout_err := ESP_OK }).state.client = some ()) := by
  refine ⟨by decide, by decide⟩

theorem C2_header_fetch_unchecked_witness :
    ((AudioReader.init 64).startUri "http://a/b.mp3" true
      { init_ok := true, open_err := ESP_OK, fetch_headers_result := 10,
        get_url_err := ESP_FAIL, resolved_url := "http://a/b.mp3",
        set_timeout_err := ESP_OK }).err ≠ ESP_OK :=
  (C2_header_fetch_unchecked.2 (AudioReader.init 64) "http://a/b.mp3" true
    { init_ok := true, open_err := ESP_OK, fetch_headers_result := 10,
      get_url_err := ESP_FAIL, resolved_url := "http://a/b.mp3",
      set_timeout_err := ESP_OK } (Or.inr rfl) (by decide)).1

/-- C5 (amended): every step whose result is FINISHED or FAILED returns
with the network session released (null handle).  FINISHED is absorbing on
the file path (null session handle, memory source set, nothing left to
forward: the step keeps returning FINISHED without touching reader or ring
buffer), and FAILED is absorbing for a reader with no source at all.  After
a network-path terminal transition, however, the next step re-dispatches on
the surviving fields: it returns FAILED when no memory source is set, or
the file path's result when a stale memory source remains, so the original
terminal state is not in general repeated. -/
theorem C5_terminal_behavior :
    (∀ (s : AudioReader) (rb : RingBuffer) (env : StepEnv),
      ((s.read rb env).result = .FINISHED ∨ (s.read rb env).result = .FAILED) →
      (s.read rb env).state.client = none) ∧
    (∀ (s : AudioReader) (rb : RingBuffer) (env : StepEnv),
      s.client = none → s.current_media_file.isSome = true →
      s.transfer_buffer_length = 0 →
      (s.read rb env).result = .FINISHED ∧ (s.read rb env).state = s ∧
      (s.read rb env).rb = rb) ∧
    (∀ (s : AudioReader) (rb : RingBuffer) (env : StepEnv),
      s.client = none → s.current_media_file = none →
      (s.read rb env).result = .FAILED ∧ (s.read rb env).state = s ∧
      (s.read rb env).rb = rb) := by
  refine ⟨?_, ?_, ?_⟩
  · intro s rb env hterm
    cases hc : s.client with
    | some u =>
      cases u
      by_cases h1 : env.is_complete_data = true
      · simp [AudioReader.read, AudioReader.http_read_, hc, h1,
          AudioReader.cleanup_connection_]
      · by_cases h2 : env.read_result < 0
        · simp [AudioReader.read, AudioReader.http_read_, hc, h1, h2,
            AudioReader.cleanup_connection_]
        · simp [AudioReader.read, AudioReader.http_read_, hc, h1, h2] at hterm
    | none =>
      cases hm : s.current_media_file with
      | none => simp [AudioReader.read, hc, hm]
      | some mf =>
        by_cases hl : s.transfer_buffer_length > 0
        · simp [AudioReader.read, AudioReader.file_read_, hc, hm, hl] at hterm
        · simp [AudioReader.read, AudioReader.file_read_, hc, hm, hl]
  · intro s rb env hc hm hl
    simp [AudioReader.read, AudioReader.file_read_, hc, hm, hl]
  · intro s rb env hc hm
    simp [AudioReader.read, hc, hm]

/-- C5, the claim as stated is false: a network-path step can return
FINISHED and the very next step (no intervening `start`) returns FAILED —
the terminal state is not absorbing once the session handle is nulled and
no memory source is set. -/
theorem C5_counterexample :
    ((({ (AudioReader.init 64) with
          client := some ()
          transfer_buffer_alloc := true } : AudioReader).read
        (RingBuffer.init 256)
        { is_complete_data := true, read_result := 0, read_data := [],
          write_accept := 0, drain := 0 }).result = .FINISHED) ∧
    (((({ (AudioReader.init 64) with
          client := some ()
          transfer_buffer_alloc := true } : AudioReader).read
        (RingBuffer.init 256)
        { is_complete_data := true, read_result := 0, read_data := [],
          write_accept := 0, drain := 0 }).state.read
        (RingBuffer.init 256)
        { is_complete_data := true, read_result := 0, read_data := [],
          write_accept := 0, drain := 0 }).result = .FAILED) := by
  refine ⟨by decide, by decide⟩

theorem C5_terminal_behavior_witness :
    (((AudioReader.init 64).startMediaFile
        { data := [], file_type := .WAV } true).state.read
      (RingBuffer.init 256)
      { is_complete_data := false, read_result := 0, read_data := [],
        write_accept := 0, drain := 0 }).result = .FINISHED :=
  (C5_terminal_behavior.2.1
    ((AudioReader.init 64).startMediaFile
      { data := [], file_type := .WAV } true).state
    (RingBuffer.init 256)
    { is_complete_data := false, read_result := 0, read_data := [],
      write_accept := 0, drain := 0 } (by decide) (by decide) (by decide)).1

/-- One step from any state satisfying the file-path invariant preserves
it; the step returns FINISHED exactly when nothing remained to forward, it
never returns FAILED, and a step taken with nothing remaining leaves the
reader untouched and appends nothing to the consumer buffer. -/
theorem step_preserves_FileInv (mf : MediaFile) (s : AudioReader)
    (rb : RingBuffer) (env : StepEnv) (h : FileInv mf s rb) :
    FileInv mf (s.step rb env).state (s.step rb env).rb ∧
    ((s.step rb env).result = .FINISHED ↔ s.transfer_buffer_length = 0) ∧
    (s.step rb env).result ≠ .FAILED ∧
    (s.transfer_buffer_length = 0 →
      (s.step rb env).state = s ∧
      (s.step rb env).rb.content = rb.content ∧
      (s.step rb env).bytes_written = 0 ∧
      (s.step rb env).result = .FINISHED) := by
  obtain ⟨hc, hm, hlen, hcont⟩ := h
  by_cases hl : 0 < s.transfer_buffer_length
  · simp only [AudioReader.step, AudioReader.read, AudioReader.file_read_,
      RingBuffer.write_without_replacement, RingBuffer.drain, FileInv, hc, hm,
      Option.isSome_none, Option.isSome_some, Bool.false_eq_true, if_false,
      if_true, if_pos hl]
    refine ⟨⟨trivial, trivial, ?_, ?_⟩, ?_, ?_, ?_⟩
    · omega
    · rw [hcont, List.take_add]
    · exact ⟨fun hh => absurd hh (by decide),
        fun h0 => absurd (h0 ▸ hl) (lt_irrefl 0)⟩
    · decide
    · exact fun h0 => absurd (h0 ▸ hl) (lt_irrefl 0)
  · have hl0 : ¬ s.transfer_buffer_length > 0 := hl
    simp only [AudioReader.step, AudioReader.read, AudioReader.file_read_,
      RingBuffer.drain, FileInv, hc, hm, Option.isSome_none,
      Option.isSome_some, Bool.false_eq_true, if_false, if_true, if_neg hl0]
    exact ⟨⟨trivial, trivial, hlen, hcont⟩, ⟨fun _ => by omega, fun _ => trivial⟩,
      by decide, fun _ => ⟨trivial, trivial, trivial, trivial⟩⟩

/-- Running any number of steps from a state satisfying the file-path
invariant preserves it; if the last step reported FINISHED nothing remains
to forward, and no step ever reports FAILED. -/
theorem runSteps_FileInv (mf : MediaFile) :
    ∀ (envs : List StepEnv) (s : AudioReader) (rb : RingBuffer),
      FileInv mf s rb →
      ∀ (s' : AudioReader) (rb' : RingBuffer) (st : Option AudioReaderState),
        s.runSteps rb envs = (s', rb', st) →
          FileInv mf s' rb' ∧
          (st = some .FINISHED → s'.transfer_buffer_length = 0) ∧
          st ≠ some .FAILED := by
  intro envs
  induction envs with
  | nil =>
    intro s rb hinv s' rb' st hrun
    simp only [AudioReader.runSteps] at hrun
    injection hrun with h1 h23
    injection h23 with h2 h3
    subst h1; subst h2; subst h3
    exact ⟨hinv, by simp, by simp⟩
  | cons env envs ih =>
    intro s rb hinv s' rb' st hrun
    have hstep := step_preserves_FileInv mf s rb env hinv
    cases envs with
    | nil =>
      simp only [AudioReader.runSteps] at hrun
      injection hrun with h1 h23
      injection h23 with h2 h3
      subst h1; subst h2; subst h3
      refine ⟨hstep.1, ?_, ?_⟩
      · intro hfin
        injection hfin with hfin
        have hlen0 := hstep.2.1.mp hfin
        have hstate := (hstep.2.2.2 hlen0).1
        rw [hstate]
        exact hlen0
      · intro hfail
        injection hfail with hfail
        exact hstep.2.2.1 hfail
    | cons env2 envs2 =>
      simp only [AudioReader.runSteps] at hrun
      exact ih (s.step rb env).state (s.step rb env).rb hstep.1 s' rb' st hrun

/-- C3: starting a memory source of data `mf.data` (length L) on a fresh
reader always succeeds, and for every sequence of polling steps (any
staging size S ≥ 1, any consumer-buffer capacity, any drain/accept
behavior): no step ever reports FAILED, and whenever a step reports
FINISHED the consumer buffer has received exactly the L bytes of the
source, in order — and any further step still reports FINISHED, writes zero
bytes and leaves the consumer buffer's received content unchanged. -/
theorem C3_memory_stream_exact (mf : MediaFile) (S C : Nat) (hS : 1 ≤ S)
    (envs : List StepEnv) (s' : AudioReader) (rb' : RingBuffer)
    (st : AudioReaderState)
    (hrun : ((AudioReader.init S).startMediaFile mf true).state.runSteps
        (RingBuffer.init C) envs = (s', rb', some st)) :
    ((AudioReader.init S).startMediaFile mf true).err = ESP_OK ∧
    st ≠ .FAILED ∧
    (st = .FINISHED →
      rb'.content = mf.data ∧
      ∀ env2 : StepEnv,
        (s'.step rb' env2).result = .FINISHED ∧
        (s'.step rb' env2).rb.content = rb'.content ∧
        (s'.step rb' env2).bytes_written = 0) := by
  have hinv0 : FileInv mf ((AudioReader.init S).startMediaFile mf true).state
      (RingBuffer.init C) := by
    simp [AudioReader.startMediaFile, AudioReader.allocate_buffers_,
      AudioReader.init, FileInv, RingBuffer.init, ESP_OK]
  have hmain := runSteps_FileInv mf envs _ _ hinv0 s' rb' (some st) hrun
  refine ⟨?_, ?_, ?_⟩
  · simp [AudioReader.startMediaFile, AudioReader.allocate_buffers_,
      AudioReader.init, ESP_OK]
  · intro hfail
    exact hmain.2.2 (by rw [hfail])
  · intro hfin
    have hlen0 : s'.transfer_buffer_length = 0 := hmain.2.1 (by rw [hfin])
    obtain ⟨hc', hm', hlen', hcont'⟩ := hmain.1
    have hcur : s'.transfer_buffer_current = mf.data.length := by omega
    constructor
    · rw [hcont', hcur, List.take_length]
    · intro env2
      have hstep := step_preserves_FileInv mf s' rb' env2
        ⟨hc', hm', hlen', hcont'⟩
      exact ⟨(hstep.2.2.2 hlen0).2.2.2, (hstep.2.2.2 hlen0).2.1,
        (hstep.2.2.2 hlen0).2.2.1⟩

theorem C3_memory_stream_exact_witness :
    (1 ≤ 4) ∧
    ({ capacity := 8, used := 5, content := [1, 2, 3, 4, 5] } :
        RingBuffer).content = [1, 2, 3, 4, 5] := by
  have h := C3_memory_stream_exact
    { data := [1, 2, 3, 4, 5], file_type := .WAV } 4 8 (by decide)
    [{ is_complete_data := false, read_result := 0, read_data := [],
       write_accept := 3, drain := 0 },
     { is_complete_data := false, read_result := 0, read_data := [],
       write_accept := 3, drain := 0 },
     { is_complete_data := false, read_result := 0, read_data := [],
       write_accept := 3, drain := 0 }]
    { client := none
      current_media_file := some { data := [1, 2, 3, 4, 5], file_type := .WAV }
      transfer_buffer_size := 4
      transfer_buffer_alloc := true
      transfer_buffer_current := 5
      transfer_buffer_length := 0 }
    { capacity := 8, used := 5, content := [1, 2, 3, 4, 5] }
    .FINISHED (by decide)
  exact ⟨by decide, (h.2.2 rfl).1⟩

theorem C4_read_quota_witness :
    ((({ (AudioReader.init 64) with
          client := some ()
          transfer_buffer_alloc := true } : AudioReader).read
        (RingBuffer.init 256)
        { is_complete_data := false, read_result := 0, read_data := [],
          write_accept := 0, drain := 0 }).read_request = some 64) := by
  have h := (C4_read_quota ({ (AudioReader.init 64) with
      client := some ()
      transfer_buffer_alloc := true } : AudioReader) (RingBuffer.init 256)
    { is_complete_data := false, read_result := 0, read_data := [],
      write_accept := 0, drain := 0 } rfl rfl).1
  rw [h]
  decide
